import Mathlib

/-!
Verification development for the NearbyConnect proximity / interaction
service.  The definitions below are a shallow embedding of the TypeScript
sources: the Prisma-backed controllers (`src/controllers/likes.ts`,
`src/controllers/dislikes.ts`, `src/controllers/users.ts`), the Express
routes (`src/routes/client/clientInteract.ts`) and the WebSocket server
(`src/index.ts`).  Database tables become explicit state records, each
controller becomes a state-passing function returning the same
success/failure shapes the code returns, and the route layer becomes the
HTTP-status mapping visible in `clientInteract.ts`.
-/

set_option autoImplicit false

namespace NearbyConnect

/-- Result of a controller call: `ok` mirrors `{success: true, data}` and
`err` mirrors `{success: false, message}` with the exact message string the
code returns. -/
inductive Outcome (α : Type) where
  | ok (data : α)
  | err (message : String)
  deriving Repr, DecidableEq

/-! ## Interaction store: likes (`src/controllers/likes.ts`)

A Prisma row `{id, userId, likedById}`:  `userId` is the user being liked
(the target), `likedById` is the user who performed the like (the actor).
Prisma's generated unique row id is modelled by a `Nat` counter `nextId`
in the database state; `like.create` consumes it.  A route parameter that
is absent or empty (falsy in JS) is modelled as `Option.none`. -/

structure LikeEdge where
  id : Nat
  userId : String
  likedById : String
  deriving Repr, DecidableEq

structure LikeDb where
  likes : List LikeEdge
  nextId : Nat
  deriving Repr, DecidableEq

/-- `createLike(userId, likedById)` from `src/controllers/likes.ts`:
rejects a missing/empty id, otherwise unconditionally inserts a fresh row
(no duplicate check anywhere in the function). -/
def createLike (db : LikeDb) (userId likedById : String) :
    Outcome LikeEdge × LikeDb :=
  if userId = "" ∨ likedById = "" then
    (.err "User ID and Liked By ID are required", db)
  else
    let newLike : LikeEdge := ⟨db.nextId, userId, likedById⟩
    (.ok newLike, ⟨db.likes ++ [newLike], db.nextId + 1⟩)

/-- `deleteLike(likeId)` from `src/controllers/likes.ts`: rejects a
missing id; otherwise calls `dbContext.like.delete` directly.  When no row
has that id Prisma throws, the `catch` block swallows the error and the
function returns the generic failure message — there is no existence
pre-check and no not-found message. -/
def deleteLike (db : LikeDb) (likeId : Option Nat) :
    Outcome Unit × LikeDb :=
  match likeId with
  | none => (.err "Like ID is required", db)
  | some i =>
    if (db.likes.find? (fun e => e.id = i)).isSome then
      (.ok (), ⟨db.likes.filter (fun e => e.id ≠ i), db.nextId⟩)
    else
      (.err "Something went wrong while deleting a like", db)

/-- HTTP status of `DELETE /likes/:likeId` in
`src/routes/client/clientInteract.ts`: 400 when the id is missing,
otherwise 200 on `result.success` and 500 on any controller failure. -/
def deleteLikeRouteStatus (db : LikeDb) (likeId : Option Nat) : Nat :=
  match likeId with
  | none => 400
  | some i =>
    match (deleteLike db (some i)).1 with
    | .ok _ => 200
    | .err _ => 500

/-! ## Interaction store: dislikes (`src/controllers/dislikes.ts`) -/

structure DislikeEdge where
  id : Nat
  userId : String
  dislikedById : String
  deriving Repr, DecidableEq

structure DislikeDb where
  dislikes : List DislikeEdge
  nextId : Nat
  deriving Repr, DecidableEq

/-- `createDislike(userId, dislikedById)` from
`src/controllers/dislikes.ts`: rejects missing ids, then runs
`dislike.findFirst({where: {userId, dislikedById}})` and refuses to insert
when a row with the same pair already exists; otherwise inserts a fresh
row. -/
def createDislike (db : DislikeDb) (userId dislikedById : String) :
    Outcome DislikeEdge × DislikeDb :=
  if userId = "" ∨ dislikedById = "" then
    (.err "User ID and Disliked By ID are required", db)
  else
    match db.dislikes.find?
        (fun e => e.userId = userId ∧ e.dislikedById = dislikedById) with
    | some _ => (.err "This user has already disliked the target user", db)
    | none =>
      let newDislike : DislikeEdge := ⟨db.nextId, userId, dislikedById⟩
      (.ok newDislike, ⟨db.dislikes ++ [newDislike], db.nextId + 1⟩)

/-- `deleteDislike(dislikeId)` from `src/controllers/dislikes.ts`: rejects
a missing id, then runs `dislike.findUnique` first and returns the
dedicated "Dislike not found" failure when no row has that id; only an
existing row is deleted. -/
def deleteDislike (db : DislikeDb) (dislikeId : Option Nat) :
    Outcome Unit × DislikeDb :=
  match dislikeId with
  | none => (.err "Dislike ID is required", db)
  | some i =>
    if (db.dislikes.find? (fun e => e.id = i)).isSome then
      (.ok (), ⟨db.dislikes.filter (fun e => e.id ≠ i), db.nextId⟩)
    else
      (.err "Dislike not found", db)

/-- HTTP status of `DELETE /dislikes/:dislikeId` in
`src/routes/client/clientInteract.ts`: 200 on `result.success`, 404 on
any controller failure. -/
def deleteDislikeRouteStatus (db : DislikeDb) (dislikeId : Option Nat) : Nat :=
  match (deleteDislike db dislikeId).1 with
  | .ok _ => 200
  | .err _ => 404

/-! ## Users and proximity (`src/controllers/users.ts`)

`findNearbyUsers` resolves the reference user with
`user.findUnique({where: {id}})`, fetches every other user with
`user.findMany({where: {id: {not: userId}}})` and keeps those whose
`calculateDistance` to the reference position is `< 10` kilometres.
`calculateDistance` itself lives in `src/cors/locationHelper.ts`, which is
imported but not part of the sources here, so the proximity code is
embedded generically: coordinates live in an arbitrary type `C` and the
distance function is a parameter returning values in a linearly ordered
type `D` containing the literal `10`.  JS numbers instantiate both. -/

structure User (C : Type) where
  id : String
  name : String
  email : String
  lat : C
  lon : C
  images : List String
  deriving Repr, DecidableEq

variable {C D : Type}

/-- `findNearbyUsers(userId)` from `src/controllers/users.ts`, generic in
the imported `calculateDistance` (argument order in the source:
`calculateDistance(userLat, userLon, user.lat, user.lon)`). -/
def findNearbyUsers [LinearOrder D] [OfNat D 10]
    (dist : C → C → C → C → D) (users : List (User C)) (userId : String) :
    Outcome (List (User C)) :=
  match users.find? (fun u => u.id = userId) with
  | none => .err "User not found"
  | some currentUser =>
    let others := users.filter (fun u => u.id ≠ userId)
    .ok (others.filter
      (fun u => dist currentUser.lat currentUser.lon u.lat u.lon < (10 : D)))

/-! ## WebSocket server (`src/index.ts`)

The server keeps `const clients = new Map()` from an identity string to
the open socket.  A `Map` holds at most one entry per key, `set` replaces
in place, and iteration follows insertion order; sockets are modelled by
`Nat` handles and the map by an insertion-ordered association list with
`Map.set` / first-match deletion semantics. -/

abbrev Clients := List (String × Nat)

/-- JS `Map.prototype.set`: overwrite the (unique) entry with this key in
place, or append a new entry at the end. -/
def clientsSet (clients : Clients) (key : String) (ch : Nat) : Clients :=
  match clients with
  | [] => [(key, ch)]
  | (k, v) :: rest =>
    if k = key then (key, ch) :: rest else (k, v) :: clientsSet rest key ch

/-- JS `Map.prototype.get`: the value of the first (unique) entry with
this key. -/
def clientsGet : Clients → String → Option Nat
  | [], _ => none
  | (k, v) :: rest, key => if k = key then some v else clientsGet rest key

/-- The `ws.on("close")` handler in `src/index.ts`: walk the map in
iteration order, delete the first entry whose value is this socket, and
stop (`break`). -/
def onClose (clients : Clients) (ch : Nat) : Clients :=
  match clients with
  | [] => []
  | (k, v) :: rest =>
    if v = ch then rest else (k, v) :: onClose rest ch

/-- One message pushed by the server: the code sends
`JSON.stringify({type: "notification", data: {userId: ...}})`; the
nested `data.userId` field is flattened into `dataUserId`. -/
structure WsMessage where
  type : String
  dataUserId : String
  deriving Repr, DecidableEq

/-- `handleLikeEvent(ws, userId, likedById)` from `src/index.ts`: look the
`userId` (the liked user) up in `clients`; when a socket is bound, send it
`{type: "notification", data: {userId: userId}}` — the `likedById`
argument (the actor) is used only in a log line, never in the message.
When no socket is bound, nothing is sent.  The returned list is the
sequence of `(socket, message)` sends the handler performs. -/
def handleLikeEvent (clients : Clients) (userId likedById : String) :
    List (Nat × WsMessage) :=
  match clientsGet clients userId with
  | some likedUserSocket => [(likedUserSocket, ⟨"notification", userId⟩)]
  | none => []

/-- Effect of one `ws.on("message")` dispatch: the registry afterwards,
the pushed messages, and whether the server closed this socket. -/
structure WsEffect where
  clients : Clients
  sends : List (Nat × WsMessage)
  closedSelf : Bool
  deriving Repr, DecidableEq

/-- `handleHandshake(ws, token)` from `src/index.ts`, generic in the
external `validateClientJWT` capability (`validate`): a valid token binds
the resolved email to this socket; an invalid one closes the socket. -/
def handleHandshake (validate : String → Option String) (clients : Clients)
    (ch : Nat) (token : String) : WsEffect :=
  match validate token with
  | some email => ⟨clientsSet clients email ch, [], false⟩
  | none => ⟨clients, [], true⟩

/-- One incoming parsed message, with the fields the `switch` in
`src/index.ts` reads off the parsed JSON. -/
structure RawMsg where
  type : String
  token : String
  userId : String
  likedById : String
  deriving Repr, DecidableEq

/-- The `switch (data.type)` of the `ws.on("message")` handler in
`src/index.ts`: `"handshake"` and `"like"` dispatch to their handlers;
the `default` branch only logs. -/
def handleMessage (validate : String → Option String) (clients : Clients)
    (ch : Nat) (msg : RawMsg) : WsEffect :=
  if msg.type = "handshake" then
    handleHandshake validate clients ch msg.token
  else if msg.type = "like" then
    ⟨clients, handleLikeEvent clients msg.userId msg.likedById, false⟩
  else
    ⟨clients, [], false⟩

/-! ## Distance calculator (spec-modelled) -/

open Real in
/-- Modelled from the spec: the two-argument arctangent used by the
haversine central angle `2·atan2(√a, √(1−a))`; `src/cors/locationHelper.ts`
is imported by `src/controllers/users.ts` but missing from the sources, so
the function follows the standard atan2 case split over the reals. -/
noncomputable def atan2 (y x : ℝ) : ℝ :=
  if 0 < x then arctan (y / x)
  else if x < 0 then
    (if 0 ≤ y then arctan (y / x) + π else arctan (y / x) - π)
  else
    (if 0 < y then π / 2 else if y < 0 then -(π / 2) else 0)

open Real in
/-- Modelled from the spec: degree-to-radian conversion used by the
haversine formula of §4.1. -/
noncomputable def toRad (deg : ℝ) : ℝ := deg * π / 180

open Real in
/-- Modelled from the spec: the haversine intermediate
`a = sin²(Δlat/2) + cos(lat1)·cos(lat2)·sin²(Δlon/2)` of §4.1 (radian
angles obtained from the degree inputs). -/
noncomputable def haversineA (lat1 lon1 lat2 lon2 : ℝ) : ℝ :=
  sin (toRad (lat2 - lat1) / 2) ^ 2 +
    cos (toRad lat1) * cos (toRad lat2) * sin (toRad (lon2 - lon1) / 2) ^ 2

/-- Modelled from the spec: `calculateDistance(lat1, lon1, lat2, lon2)`
of the missing `src/cors/locationHelper.ts`, per §4.1 of the spec —
central angle `2·atan2(√a, √(1−a))` scaled by the Earth mean radius
6371 km. -/
noncomputable def calculateDistance (lat1 lon1 lat2 lon2 : ℝ) : ℝ :=
  6371 * (2 * atan2 (Real.sqrt (haversineA lat1 lon1 lat2 lon2))
    (Real.sqrt (1 - haversineA lat1 lon1 lat2 lon2)))

/-! ## Theorems -/

/-- C3: a `createDislike` call whose (actor, target) pair already has a
dislike edge in storage fails with the Conflict outcome (the dedicated
already-disliked rejection) and leaves the stored dislike edges
unchanged.  In the code's argument order the target is `userId` and the
actor is `dislikedById`. -/
theorem createDislike_duplicate_conflict (db : DislikeDb)
    (userId dislikedById : String)
    (hu : userId ≠ "") (hd : dislikedById ≠ "")
    (hex : (db.dislikes.find?
      (fun e => e.userId = userId ∧ e.dislikedById = dislikedById)).isSome) :
    createDislike db userId dislikedById =
      (.err "This user has already disliked the target user", db) := by
  obtain ⟨e, he⟩ := Option.isSome_iff_exists.mp hex
  simp only [createDislike,
    if_neg (show ¬(userId = "" ∨ dislikedById = "") by simp [hu, hd]), he]

/-- C3 witness: with the pair ("b" disliked by "a") already stored, the
repeated call is rejected with Conflict and storage is unchanged. -/
theorem createDislike_duplicate_conflict_witness :
    ("b" : String) ≠ "" ∧ ("a" : String) ≠ "" ∧
    ((DislikeDb.mk [⟨0, "b", "a"⟩] 1).dislikes.find?
      (fun e => e.userId = "b" ∧ e.dislikedById = "a")).isSome ∧
    createDislike ⟨[⟨0, "b", "a"⟩], 1⟩ "b" "a" =
      (.err "This user has already disliked the target user",
        ⟨[⟨0, "b", "a"⟩], 1⟩) :=
  ⟨by decide, by decide, by decide,
    createDislike_duplicate_conflict ⟨[⟨0, "b", "a"⟩], 1⟩ "b" "a"
      (by decide) (by decide) (by decide)⟩

/-- C5: with both ids non-empty, two successive `createLike` calls with
the same pair both succeed (there is no duplicate check), and afterwards
the store holds two distinct like edges for that pair. -/
theorem createLike_twice_two_edges (db : LikeDb) (userId likedById : String)
    (hu : userId ≠ "") (hl : likedById ≠ "") :
    (createLike db userId likedById).1 = .ok ⟨db.nextId, userId, likedById⟩ ∧
    (createLike (createLike db userId likedById).2 userId likedById).1 =
      .ok ⟨db.nextId + 1, userId, likedById⟩ ∧
    (⟨db.nextId, userId, likedById⟩ : LikeEdge) ≠
      ⟨db.nextId + 1, userId, likedById⟩ ∧
    (⟨db.nextId, userId, likedById⟩ : LikeEdge) ∈
      (createLike (createLike db userId likedById).2 userId likedById).2.likes ∧
    (⟨db.nextId + 1, userId, likedById⟩ : LikeEdge) ∈
      (createLike (createLike db userId likedById).2 userId likedById).2.likes := by
  refine ⟨?_, ?_, ?_, ?_, ?_⟩ <;>
    simp [createLike, hu, hl, LikeEdge.mk.injEq]

/-- C5 witness: liking "b" twice as actor "a" from the empty store
creates the two distinct edges with ids 0 and 1. -/
theorem createLike_twice_two_edges_witness :
    ("b" : String) ≠ "" ∧ ("a" : String) ≠ "" ∧
    ((createLike ⟨[], 0⟩ "b" "a").1 = .ok ⟨0, "b", "a"⟩ ∧
      (createLike (createLike ⟨[], 0⟩ "b" "a").2 "b" "a").1 =
        .ok ⟨0 + 1, "b", "a"⟩ ∧
      (⟨0, "b", "a"⟩ : LikeEdge) ≠ ⟨0 + 1, "b", "a"⟩ ∧
      (⟨0, "b", "a"⟩ : LikeEdge) ∈
        (createLike (createLike ⟨[], 0⟩ "b" "a").2 "b" "a").2.likes ∧
      (⟨0 + 1, "b", "a"⟩ : LikeEdge) ∈
        (createLike (createLike ⟨[], 0⟩ "b" "a").2 "b" "a").2.likes) :=
  ⟨by decide, by decide,
    createLike_twice_two_edges ⟨[], 0⟩ "b" "a" (by decide) (by decide)⟩

/-- C6 counterexample: deleting the nonexistent like id 0 from the empty
store does fail, but with the generic internal failure (HTTP 500 from the
route) — not with a NotFound outcome (HTTP 404), contradicting the claim
that the missing-row failure is normalized to NotFound. -/
theorem deleteLike_missing_not_notFound :
    deleteLike ⟨[], 0⟩ (some 0) =
      (.err "Something went wrong while deleting a like", ⟨[], 0⟩) ∧
    deleteLikeRouteStatus ⟨[], 0⟩ (some 0) = 500 ∧
    deleteLikeRouteStatus ⟨[], 0⟩ (some 0) ≠ 404 := by
  decide

/-- C6 amended: for every present-but-unresolvable likeId, `deleteLike`
fails with the generic internal failure message (surfacing through the
route as HTTP 500), not a NotFound outcome, and storage is unchanged. -/
theorem deleteLike_missing_internal (db : LikeDb) (i : Nat)
    (h : db.likes.find? (fun e => e.id = i) = none) :
    deleteLike db (some i) =
      (.err "Something went wrong while deleting a like", db) ∧
    deleteLikeRouteStatus db (some i) = 500 := by
  simp [deleteLike, deleteLikeRouteStatus, h]

/-- C6 amended witness: the store holding only like id 3 treats deleting
id 7 as an internal failure (500) and keeps its contents. -/
theorem deleteLike_missing_internal_witness :
    ((LikeDb.mk [⟨3, "b", "a"⟩] 4).likes.find? (fun e => e.id = 7) = none) ∧
    (deleteLike ⟨[⟨3, "b", "a"⟩], 4⟩ (some 7) =
      (.err "Something went wrong while deleting a like",
        ⟨[⟨3, "b", "a"⟩], 4⟩) ∧
    deleteLikeRouteStatus ⟨[⟨3, "b", "a"⟩], 4⟩ (some 7) = 500) :=
  ⟨by decide, deleteLike_missing_internal ⟨[⟨3, "b", "a"⟩], 4⟩ 7 (by decide)⟩

/-- C7: for every present-but-unresolvable dislikeId, `deleteDislike`
fails with the dedicated NotFound outcome ("Dislike not found", HTTP 404
from the route) and the stored dislike edges are unchanged. -/
theorem deleteDislike_missing_notFound (db : DislikeDb) (i : Nat)
    (h : db.dislikes.find? (fun e => e.id = i) = none) :
    deleteDislike db (some i) = (.err "Dislike not found", db) ∧
    deleteDislikeRouteStatus db (some i) = 404 := by
  simp [deleteDislike, deleteDislikeRouteStatus, h]

/-- C7 witness: the store holding only dislike id 3 answers NotFound
(404) for deleting id 7 and keeps its contents. -/
theorem deleteDislike_missing_notFound_witness :
    ((DislikeDb.mk [⟨3, "b", "a"⟩] 4).dislikes.find? (fun e => e.id = 7) = none) ∧
    (deleteDislike ⟨[⟨3, "b", "a"⟩], 4⟩ (some 7) =
      (.err "Dislike not found", ⟨[⟨3, "b", "a"⟩], 4⟩) ∧
    deleteDislikeRouteStatus ⟨[⟨3, "b", "a"⟩], 4⟩ (some 7) = 404) :=
  ⟨by decide, deleteDislike_missing_notFound ⟨[⟨3, "b", "a"⟩], 4⟩ 7 (by decide)⟩

/-- C2: whenever the reference user resolves, `findNearbyUsers` succeeds
and returns exactly the users whose id differs from the reference id
(exclusion is by identity, so coordinates play no role in it) and whose
computed distance from the reference position is strictly below 10. -/
theorem findNearbyUsers_members {C D : Type} [LinearOrder D] [OfNat D 10]
    (dist : C → C → C → C → D) (users : List (User C)) (userId : String)
    (currentUser : User C)
    (h : users.find? (fun u => u.id = userId) = some currentUser) :
    ∃ l, findNearbyUsers dist users userId = .ok l ∧
      ∀ u : User C, u ∈ l ↔
        u ∈ users ∧ u.id ≠ userId ∧
          dist currentUser.lat currentUser.lon u.lat u.lon < 10 := by
  refine ⟨(users.filter (fun u => u.id ≠ userId)).filter
      (fun u => dist currentUser.lat currentUser.lon u.lat u.lon < 10),
    ?_, ?_⟩
  · simp only [findNearbyUsers, h]
  · intro u
    simp only [List.mem_filter, decide_eq_true_eq]
    tauto

/-- C2 witness: reference "a" at (0,0), candidate "b" at the same
coordinates (distance 0, returned despite equal position) and candidate
"c" at distance 111 (dropped); the distance function reads off the
candidate latitude. -/
theorem findNearbyUsers_members_witness :
    ([⟨"a", "A", "a@x", 0, 0, []⟩, ⟨"b", "B", "b@x", 0, 0, []⟩,
        ⟨"c", "C", "c@x", 111, 0, []⟩] : List (User Int)).find?
      (fun u => u.id = "a") = some ⟨"a", "A", "a@x", 0, 0, []⟩ ∧
    ∃ l, findNearbyUsers (fun _ _ la2 _ => la2)
        [⟨"a", "A", "a@x", 0, 0, []⟩, ⟨"b", "B", "b@x", 0, 0, []⟩,
          ⟨"c", "C", "c@x", 111, 0, []⟩] "a" = .ok l ∧
      ∀ u : User Int, u ∈ l ↔
        u ∈ [⟨"a", "A", "a@x", 0, 0, []⟩, ⟨"b", "B", "b@x", 0, 0, []⟩,
          ⟨"c", "C", "c@x", 111, 0, []⟩] ∧ u.id ≠ "a" ∧
          (fun (_ _ la2 _ : Int) => la2) (0 : Int) 0 u.lat u.lon < 10 :=
  ⟨by decide,
    findNearbyUsers_members (fun _ _ la2 _ => la2)
      [⟨"a", "A", "a@x", 0, 0, []⟩, ⟨"b", "B", "b@x", 0, 0, []⟩,
        ⟨"c", "C", "c@x", 111, 0, []⟩] "a" ⟨"a", "A", "a@x", 0, 0, []⟩
      (by decide)⟩

/-- C8: `findNearbyUsers` answers the NotFound failure ("User not found")
exactly when no user carries the reference id, and otherwise it
succeeds. -/
theorem findNearbyUsers_notFound_iff {C D : Type} [LinearOrder D] [OfNat D 10]
    (dist : C → C → C → C → D) (users : List (User C)) (userId : String) :
    (findNearbyUsers dist users userId = .err "User not found" ↔
      users.find? (fun u => u.id = userId) = none) ∧
    (users.find? (fun u => u.id = userId) = none ∨
      ∃ l, findNearbyUsers dist users userId = .ok l) := by
  cases h : users.find? (fun u => u.id = userId) with
  | none => simp [findNearbyUsers, h]
  | some cur =>
    constructor
    · simp [findNearbyUsers, h]
    · exact Or.inr ⟨(users.filter (fun u => u.id ≠ userId)).filter
        (fun u => dist cur.lat cur.lon u.lat u.lon < 10),
        by simp only [findNearbyUsers, h]⟩

/-- Rebinding a key overwrites in place: setting the same key twice is
the same as setting it once to the second value. -/
theorem clientsSet_clientsSet (m : Clients) (u : String) (c1 c2 : Nat) :
    clientsSet (clientsSet m u c1) u c2 = clientsSet m u c2 := by
  induction m with
  | nil => simp [clientsSet]
  | cons e rest ih =>
    obtain ⟨k, v⟩ := e
    by_cases hk : k = u
    · simp [clientsSet, hk]
    · simp [clientsSet, hk, ih]

/-- Looking up a key just set returns the value just set. -/
theorem clientsGet_clientsSet (m : Clients) (u : String) (c : Nat) :
    clientsGet (clientsSet m u c) u = some c := by
  induction m with
  | nil => simp [clientsSet, clientsGet]
  | cons e rest ih =>
    obtain ⟨k, v⟩ := e
    by_cases hk : k = u
    · simp [clientsSet, clientsGet, hk]
    · simp [clientsSet, clientsGet, hk, ih]

/-- Every entry after a `set` either carries the new value or was already
present. -/
theorem mem_clientsSet (m : Clients) (u : String) (c : Nat) :
    ∀ e ∈ clientsSet m u c, e.2 = c ∨ e ∈ m := by
  induction m with
  | nil => simp [clientsSet]
  | cons hd rest ih =>
    obtain ⟨k, v⟩ := hd
    by_cases hk : k = u
    · intro e he
      simp only [clientsSet, if_pos hk, List.mem_cons] at he
      rcases he with he | he
      · exact Or.inl (by rw [he])
      · exact Or.inr (List.mem_cons_of_mem _ he)
    · intro e he
      simp only [clientsSet, if_neg hk, List.mem_cons] at he
      rcases he with he | he
      · exact Or.inr (by rw [he]; exact List.mem_cons_self _ _)
      · rcases ih e he with h | h
        · exact Or.inl h
        · exact Or.inr (List.mem_cons_of_mem _ h)

/-- The close handler deletes nothing when no entry holds this socket. -/
theorem onClose_of_not_bound (l : Clients) (c : Nat)
    (h : ∀ e ∈ l, e.2 ≠ c) : onClose l c = l := by
  induction l with
  | nil => rfl
  | cons e rest ih =>
    obtain ⟨k, v⟩ := e
    have hv : v ≠ c := h (k, v) (List.mem_cons_self _ _)
    simp only [onClose, if_neg hv]
    rw [ih (fun e he => h e (List.mem_cons_of_mem _ he))]

/-- C4: binding identity `u` to socket `c1` and then to a distinct socket
`c2` leaves `c2` bound, and the close cleanup run for the stale socket
`c1` (not bound anywhere once `c2` replaced it) removes nothing — in
particular `u` stays bound to `c2`. -/
theorem rebind_then_stale_close (m : Clients) (u : String) (c1 c2 : Nat)
    (hne : c1 ≠ c2) (hfresh : ∀ e ∈ m, e.2 ≠ c1) :
    clientsGet (clientsSet (clientsSet m u c1) u c2) u = some c2 ∧
    onClose (clientsSet (clientsSet m u c1) u c2) c1 =
      clientsSet (clientsSet m u c1) u c2 := by
  rw [clientsSet_clientsSet]
  refine ⟨clientsGet_clientsSet m u c2, onClose_of_not_bound _ _ ?_⟩
  intro e he
  rcases mem_clientsSet m u c2 e he with h | h
  · rw [h]; exact hne.symm
  · exact hfresh e h

/-- C4 witness: with "x" bound to socket 5, rebinding "u" from socket 1
to socket 2 keeps `lookup "u" = 2`, and the stale close of socket 1
changes nothing. -/
theorem rebind_then_stale_close_witness :
    (1 : Nat) ≠ 2 ∧ (∀ e ∈ ([("x", 5)] : Clients), e.2 ≠ 1) ∧
    (clientsGet (clientsSet (clientsSet [("x", 5)] "u" 1) "u" 2) "u" =
        some 2 ∧
      onClose (clientsSet (clientsSet [("x", 5)] "u" 1) "u" 2) 1 =
        clientsSet (clientsSet [("x", 5)] "u" 1) "u" 2) :=
  ⟨by decide, by decide,
    rebind_then_stale_close [("x", 5)] "u" 1 2 (by decide) (by decide)⟩

/-- C10: a message whose type is neither "handshake" nor "like" falls to
the `default` branch, which only logs: the registry is unchanged, nothing
is pushed to any socket, and the connection is not closed. -/
theorem handleMessage_unknown_noop (validate : String → Option String)
    (clients : Clients) (ch : Nat) (msg : RawMsg)
    (h1 : msg.type ≠ "handshake") (h2 : msg.type ≠ "like") :
    handleMessage validate clients ch msg = ⟨clients, [], false⟩ := by
  simp [handleMessage, h1, h2]

/-- C10 witness: a "ping" message on socket 0 against the binding
("u", 3) leaves everything as it was. -/
theorem handleMessage_unknown_noop_witness :
    ("ping" : String) ≠ "handshake" ∧ ("ping" : String) ≠ "like" ∧
    handleMessage (fun _ => none) [("u", 3)] 0 ⟨"ping", "", "", ""⟩ =
      ⟨[("u", 3)], [], false⟩ :=
  ⟨by decide, by decide,
    handleMessage_unknown_noop (fun _ => none) [("u", 3)] 0
      ⟨"ping", "", "", ""⟩ (by decide) (by decide)⟩

/-- C1: evaluation at the end-to-end scenario "alice likes bob".  The
durable write succeeds (`createLike("bob", "alice")` stores the edge)
independently of connections; with bob's socket 7 bound, exactly one
notification is pushed to it — but its `data.userId` is "bob", the
target's own id, not the actor "alice" the claim (and spec §6) call for;
with no binding, nothing is pushed. -/
theorem handleLikeEvent_sends_target_not_actor :
    createLike ⟨[], 0⟩ "bob" "alice" =
      (.ok ⟨0, "bob", "alice"⟩, ⟨[⟨0, "bob", "alice"⟩], 1⟩) ∧
    handleLikeEvent [("bob", 7)] "bob" "alice" =
      [(7, ⟨"notification", "bob"⟩)] ∧
    (∀ s ∈ handleLikeEvent [("bob", 7)] "bob" "alice",
      s.2.dataUserId ≠ "alice") ∧
    handleLikeEvent [] "bob" "alice" = [] := by
  decide

/-- The haversine intermediate is symmetric in its two points. -/
theorem haversineA_symm (lat1 lon1 lat2 lon2 : ℝ) :
    haversineA lat1 lon1 lat2 lon2 = haversineA lat2 lon2 lat1 lon1 := by
  have key : ∀ x y : ℝ,
      Real.sin (toRad (x - y) / 2) ^ 2 = Real.sin (toRad (y - x) / 2) ^ 2 := by
    intro x y
    have h : toRad (x - y) / 2 = -(toRad (y - x) / 2) := by
      simp only [toRad]; ring
    rw [h, Real.sin_neg, neg_sq]
  simp only [haversineA]
  rw [key lat2 lat1, key lon2 lon1,
    mul_comm (Real.cos (toRad lat1)) (Real.cos (toRad lat2))]

/-- C9: the spec-modelled haversine great-circle distance (Earth mean
radius 6371 km) is symmetric — over the reals the two orders agree
exactly, hence in particular within any floating-point tolerance. -/
theorem calculateDistance_symm (lat1 lon1 lat2 lon2 : ℝ) :
    calculateDistance lat1 lon1 lat2 lon2 =
      calculateDistance lat2 lon2 lat1 lon1 := by
  simp only [calculateDistance]
  rw [haversineA_symm]

end NearbyConnect
